import Mathlib

/-
Verification of the batch image processing pipeline of the
universal-image-upscaler repository.

The embedding translates the TypeScript sources into Lean:
  - the dimension and file-name utilities (src/unnamed/part_000),
  - the client batch orchestrator processImages (src/components/image-processor.tsx),
  - the server route POST handler and its upscaleWithReplicate helper,
    the standalone upscale endpoint, and the download-all cleanup timer
    (src/app/api/process-image/route.ts and the files bundled with it).

JavaScript numbers are modelled as exact rationals, pixel dimensions as
naturals.  Effects (the external provider call, fetches, image decoding,
the clock) are modelled by explicit environment records; the value a
function hands to an effectful capability is recorded in the result so
that theorems can speak about it.
-/

deriving instance DecidableEq for Except

namespace Upscaler

/-- JS Math.round: floor of x + 1/2 (round half toward positive infinity). -/
def jsRound (q : ℚ) : ℤ := ⌊q + 1 / 2⌋

/-- Pixel dimensions of an image, as in the ImageDimensions interface. -/
structure ImageDimensions where
  width : ℕ
  height : ℕ
deriving DecidableEq

/-- calculateResizeDimensions from the shared utility file: shrink so the
larger axis fits maxDimension, rounding each axis with Math.round. -/
def calculateResizeDimensions (originalSize : ImageDimensions) (maxDimension : ℕ) :
    ImageDimensions × Bool :=
  let maxOriginal := max originalSize.width originalSize.height
  if maxOriginal ≤ maxDimension then
    (originalSize, false)
  else
    let scaleFactor : ℚ := (maxDimension : ℚ) / (maxOriginal : ℚ)
    ({ width := (jsRound ((originalSize.width : ℚ) * scaleFactor)).toNat,
       height := (jsRound ((originalSize.height : ℚ) * scaleFactor)).toNat },
     true)

/-- The whitespace characters the sanitizer collapses (JS regex backslash-s,
restricted to the ASCII characters that can occur in our file names). -/
def jsWhitespace (c : Char) : Bool :=
  c == ' ' || c == '\t' || c == '\n' || c == '\r'

/-- Characters kept by the sanitizer character class [A-Za-z0-9_-]. -/
def wordChar (c : Char) : Bool :=
  (c.isAlpha || c.isDigit) || (c == '_' || c == '-')

/-- Replace every maximal run of whitespace with a single underscore,
mirroring replace of one-or-more whitespace with an underscore globally.
The flag records whether the previous character was part of a run. -/
def collapseWsAux : Bool → List Char → List Char
  | _, [] => []
  | prevWs, c :: cs =>
    if jsWhitespace c then
      if prevWs then collapseWsAux true cs else '_' :: collapseWsAux true cs
    else
      c :: collapseWsAux false cs

/-- Strip a trailing dot-extension: the JS regex removes a final literal dot
followed by one or more characters none of which is a slash or a dot. -/
def stripExtensionChars (l : List Char) : List Char :=
  let r := l.reverse
  let ext := r.takeWhile (fun c => c != '.' && c != '/')
  match r.drop ext.length with
  | '.' :: restRev => if ext.isEmpty then l else restRev.reverse
  | _ => l

/-- The deterministic part of sanitizeFileName: strip the extension,
collapse whitespace to underscores, drop other special characters and
truncate to 50 characters.  This is the value of the local variable
called sanitized in the source. -/
def sanitizedCore (filename : String) : String :=
  String.mk (((collapseWsAux false (stripExtensionChars filename.data)).filter wordChar).take 50)

/-- sanitizeFileName: when the sanitized core is empty the source falls back
to image_ followed by Date.now(); the clock reading is the explicit
parameter now. -/
def sanitizeFileName (now : ℕ) (filename : String) : String :=
  let sanitized := sanitizedCore filename
  if sanitized = "" then "image_" ++ toString now else sanitized

/-- JS truthiness of an optional string: defined and not empty. -/
def truthyStr : Option String → Bool
  | none => false
  | some s => s != ""

/-- generateProcessedFileName from the shared utility file.  The clock
parameter now is only consulted through sanitizeFileName. -/
def generateProcessedFileName (now : ℕ) (originalName : String)
    (pre : Option String) (index : Option ℕ) : String :=
  if truthyStr pre && index.isSome then
    sanitizeFileName now (pre.getD "") ++ "_" ++ toString (index.getD 0 + 1)
  else if index.isSome then
    "image_" ++ toString (index.getD 0 + 1)
  else
    sanitizeFileName now originalName

/-- Floor of the base-1024 logarithm, the exact value of
Math.floor(Math.log bytes / Math.log 1024) for positive bytes.  The fuel
argument makes the recursion structural. -/
def floorLog1024Aux : ℕ → ℕ → ℕ
  | 0, _ => 0
  | fuel + 1, n => if n < 1024 then 0 else floorLog1024Aux fuel (n / 1024) + 1

/-- Floor of the base-1024 logarithm of a positive byte count. -/
def floorLog1024 (n : ℕ) : ℕ := floorLog1024Aux n n

/-- JS toFixed(1) for a nonnegative rational: one decimal digit, rounding
half up. -/
def toFixed1 (q : ℚ) : String :=
  let n := jsRound (q * 10)
  toString (n / 10) ++ "." ++ toString (n % 10)

/-- formatFileSize: base-1024 units with one decimal place.  An index past
GB renders as the string undefined, as JS string interpolation of an
out-of-range array access does. -/
def formatFileSize (bytes : ℕ) : String :=
  if bytes = 0 then "0 B"
  else
    let i := floorLog1024 bytes
    let value : ℚ := (bytes : ℚ) / (1024 : ℚ) ^ i
    toFixed1 value ++ " " ++ (["B", "KB", "MB", "GB"].getD i "undefined")

/-- The MIME types accepted by validateImageFile. -/
def supportedTypes : List String :=
  ["image/jpeg", "image/jpg", "image/png", "image/webp",
   "image/avif", "image/bmp", "image/tiff", "image/gif"]

/-- The 50 MiB upload limit shared by the validator and the server route. -/
def MAX_FILE_SIZE : ℕ := 50 * 1024 * 1024

/-- The fields of a browser File object that the validator consults. -/
structure JSFile where
  name : String
  type : String
  size : ℕ
deriving DecidableEq

/-- validateImageFile: reject unsupported MIME types, then oversized files. -/
def validateImageFile (file : JSFile) : Bool × Option String :=
  if !(supportedTypes.contains file.type) then
    (false, some ("Unsupported file type: " ++ file.type ++
      ". Supported formats: JPEG, PNG, WebP, AVIF, BMP, TIFF, GIF"))
  else if MAX_FILE_SIZE < file.size then
    (false, some ("File too large: " ++ formatFileSize file.size ++
      ". Maximum size: " ++ formatFileSize MAX_FILE_SIZE))
  else
    (true, none)

/-! ### Server route: process-image POST and its upscaleWithReplicate helper -/

/-- Shapes the in-route helper can see as a provider response: a direct
string, an object with a url field, an object with a stringValue field, an
array, or anything else. -/
inductive ReplicateOutput where
  | str (url : String)
  | objWithUrl (url : String)
  | objWithStringValue (url : String)
  | arr (urls : List String)
  | otherObj
deriving DecidableEq

/-- URL extraction of upscaleWithReplicate: string output, then the url
field, then the stringValue field, then the first array element. -/
def extractUrl : ReplicateOutput → Option String
  | ReplicateOutput.str u => some u
  | ReplicateOutput.objWithUrl u => some u
  | ReplicateOutput.objWithStringValue u => some u
  | ReplicateOutput.arr us =>
    match us with
    | u :: _ => some u
    | [] => none
  | ReplicateOutput.otherObj => none

/-- Possible output fields of a prediction object from the REST endpoint. -/
inductive PredOut where
  | pstr (s : String)
  | parr (l : List String)
  | pnone
deriving DecidableEq

/-- The JSON body the standalone upscale endpoint receives back from the
provider, as far as its duck-typed checks look at it. -/
structure PredictionJson where
  hasRead : Bool
  readData : Except String String
  isEmptyObj : Bool
  status : Option String
  out : PredOut
  errorMsg : Option String
deriving DecidableEq

/-- The world outside the two server handlers: the provider credential, the
provider calls (keyed by the scale they are invoked with), fetch success,
what decoding the bytes behind a URL would measure, and the clock. -/
structure ProviderEnv where
  apiToken : Option String
  readImageOk : Bool
  run : ℚ → Except String ReplicateOutput
  predictOk : ℚ → Bool
  predictJson : ℚ → PredictionJson
  fetchOk : String → Bool
  decodeDims : String → Option ImageDimensions
  timestamp : ℕ

/-- Return value of the in-route upscale helper.  submittedScale records
the scale handed to the provider call, if one was made. -/
structure UpscaleRet where
  success : Bool
  error : Option String
  wasUpscaled : Bool
  scaleFactor : ℚ
  finalSize : Option ImageDimensions
  downloadUrl : Option String
  submittedScale : Option ℚ
deriving DecidableEq

/-- A failed upscale attempt: success false plus an error message. -/
def upscaleFail (msg : String) (sub : Option ℚ) : UpscaleRet :=
  { success := false, error := some msg, wasUpscaled := false, scaleFactor := 1,
    finalSize := none, downloadUrl := none, submittedScale := sub }

/-- upscaleWithReplicate: a missing credential is thrown (Except.error);
everything after the factor check runs inside a try/catch that converts
failures into a success-false return.  The provider scale is clamped to 4,
the reported scaleFactor is not, and finalSize is measured by decoding the
downloaded result. -/
def upscaleWithReplicate (env : ProviderEnv) (fileName : String)
    (currentSize : ImageDimensions) (targetSize : ℕ) : Except String UpscaleRet :=
  match env.apiToken with
  | none => Except.error "REPLICATE_API_TOKEN not configured"
  | some _ =>
    let maxCurrentDimension := max currentSize.width currentSize.height
    let scaleFactor : ℚ := (targetSize : ℚ) / (maxCurrentDimension : ℚ)
    if scaleFactor ≤ 1 then
      Except.ok (upscaleFail ("Image already at target size or larger (current: " ++
        toString maxCurrentDimension ++ "px, target: " ++ toString targetSize ++ "px)") none)
    else if !env.readImageOk then
      Except.ok (upscaleFail "Failed to read processed image" none)
    else
      let submitted := min scaleFactor 4
      match env.run submitted with
      | Except.error e => Except.ok (upscaleFail e (some submitted))
      | Except.ok out =>
        match extractUrl out with
        | none => Except.ok (upscaleFail "No output from Replicate" (some submitted))
        | some imageUrl =>
          if !(env.fetchOk imageUrl) then
            Except.ok (upscaleFail "Failed to download upscaled image" (some submitted))
          else
            match env.decodeDims imageUrl with
            | none => Except.ok (upscaleFail "Invalid upscaled image" (some submitted))
            | some dims =>
              Except.ok { success := true, error := none, wasUpscaled := true,
                          scaleFactor := scaleFactor, finalSize := some dims,
                          downloadUrl := some ("/api/serve-image/upscaled_" ++
                            toString env.timestamp ++ "_" ++ fileName ++ ".png"),
                          submittedScale := some submitted }

/-- The file fields the process-image POST handler looks at; dims is what
decoding the bytes yields (none for an unreadable image). -/
structure ServerFile where
  name : String
  size : ℕ
  dims : Option ImageDimensions
deriving DecidableEq

/-- The parsed settings object of the process-image POST handler. -/
structure ServerSettings where
  fileName : String
  maxDimension : ℕ
  enableUpscaling : Bool
  targetSize : ℕ
deriving DecidableEq

/-- The JSON body the process-image POST handler responds with. -/
structure ProcessingResult where
  success : Bool
  error : Option String
  processedName : Option String
  originalSize : Option ImageDimensions
  finalSize : Option ImageDimensions
  wasResized : Bool
  wasUpscaled : Bool
  scaleFactor : ℚ
  downloadUrl : Option String
deriving DecidableEq

/-- A failure response of the process-image POST handler. -/
def failResult (msg : String) : ProcessingResult :=
  { success := false, error := some msg, processedName := none, originalSize := none,
    finalSize := none, wasResized := false, wasUpscaled := false, scaleFactor := 1,
    downloadUrl := none }

/-- The resize block inlined in the POST handler (same formula as
calculateResizeDimensions, with the complementary comparison). -/
def serverResize (originalSize : ImageDimensions) (maxDimension : ℕ) :
    ImageDimensions × Bool :=
  let maxCurrentDimension := max originalSize.width originalSize.height
  if maxDimension < maxCurrentDimension then
    let scaleFactor : ℚ := (maxDimension : ℚ) / (maxCurrentDimension : ℚ)
    ({ width := (jsRound ((originalSize.width : ℚ) * scaleFactor)).toNat,
       height := (jsRound ((originalSize.height : ℚ) * scaleFactor)).toNat },
     true)
  else
    (originalSize, false)

/-- The process-image POST handler: validate, resize, build the baseline
result, then conditionally attempt the upscale, merging only a successful
attempt and swallowing thrown upscale errors. -/
def processImagePOST (env : ProviderEnv) (timestamp : ℕ)
    (file : Option ServerFile) (settings : ServerSettings) : ProcessingResult :=
  match file with
  | none => failResult "No file provided"
  | some f =>
    if MAX_FILE_SIZE < f.size then
      failResult "File too large (max: 50MB)"
    else
      match f.dims with
      | none => failResult "Invalid image file"
      | some originalSize =>
        let resized := serverResize originalSize settings.maxDimension
        let finalSize := resized.1
        let processedUrl := "/api/serve-image/" ++ toString timestamp ++ "_" ++
          settings.fileName ++ ".png"
        let result : ProcessingResult :=
          { success := true, error := none, processedName := some settings.fileName,
            originalSize := some originalSize, finalSize := some finalSize,
            wasResized := resized.2, wasUpscaled := false, scaleFactor := 1,
            downloadUrl := some processedUrl }
        if settings.enableUpscaling = true ∧
            max finalSize.width finalSize.height < settings.targetSize then
          match upscaleWithReplicate env settings.fileName finalSize settings.targetSize with
          | Except.error _ => result
          | Except.ok u =>
            if u.success then
              { result with
                wasUpscaled := u.wasUpscaled, scaleFactor := u.scaleFactor,
                finalSize := some ((u.finalSize).getD finalSize),
                downloadUrl := some ((u.downloadUrl).getD processedUrl) }
            else result
        else result

/-- Whether an upscale attempt (as seen by the POST handler) succeeded;
a thrown error counts as not succeeded. -/
def upscaleAttemptSucceeded : Except String UpscaleRet → Bool
  | Except.ok u => u.success
  | Except.error _ => false

/-! ### Standalone upscale endpoint (the route the client orchestrator calls) -/

/-- The JSON request body of the standalone upscale endpoint. -/
structure UpscaleImageRequest where
  imageUrl : String
  fileName : String
  currentSize : ImageDimensions
  targetSize : ℕ
deriving DecidableEq

/-- The JSON response of the standalone upscale endpoint.  submittedScale
records the scale sent to the provider, if the call was reached. -/
structure UpscaleApiResponse where
  success : Bool
  error : Option String
  scaleFactor : ℚ
  finalSize : Option ImageDimensions
  downloadUrl : Option String
  submittedScale : Option ℚ
deriving DecidableEq

/-- A failure response of the standalone upscale endpoint. -/
def apiFail (msg : String) (sub : Option ℚ) : UpscaleApiResponse :=
  { success := false, error := some msg, scaleFactor := 1, finalSize := none,
    downloadUrl := none, submittedScale := sub }

/-- The response interpretation that follows the prediction call in the
standalone endpoint: empty-object check, HTTP status check, then URL
extraction from a succeeded or processing prediction.  Every success exit
reports the finalSize computed from the unclamped factor. -/
def afterPredict (ok : Bool) (out : PredictionJson) (scaleFactor submitted : ℚ)
    (computedSize : ImageDimensions) : UpscaleApiResponse :=
  if out.isEmptyObj then
    apiFail "Replicate returned empty object - this might be a model or API issue"
      (some submitted)
  else if !ok then
    apiFail "Replicate API error" (some submitted)
  else
    let resultUrl : Option String :=
      if out.status = some "succeeded" ∨ out.status = some "processing" then
        match out.out with
        | PredOut.pstr s => if s = "" then none else some s
        | PredOut.parr (s :: _) => some s
        | PredOut.parr [] => none
        | PredOut.pnone => none
      else none
    if out.status = some "failed" then
      apiFail ("Replicate prediction failed: " ++ (out.errorMsg).getD "Unknown error")
        (some submitted)
    else
      match resultUrl with
      | none => apiFail "No valid URL in Replicate response" (some submitted)
      | some u =>
        { success := true, error := none, scaleFactor := scaleFactor,
          finalSize := some computedSize, downloadUrl := some u,
          submittedScale := some submitted }

/-- The standalone upscale endpoint POST handler.  Its success responses
report finalSize as Math.round(currentSize times the unclamped factor);
the returned image is never decoded. -/
def upscaleImagePOST (env : ProviderEnv) (req : UpscaleImageRequest) : UpscaleApiResponse :=
  match env.apiToken with
  | none => apiFail "REPLICATE_API_TOKEN not configured" none
  | some _ =>
    let maxCurrentDimension := max req.currentSize.width req.currentSize.height
    let scaleFactor : ℚ := (req.targetSize : ℚ) / (maxCurrentDimension : ℚ)
    if scaleFactor ≤ 1 then
      apiFail ("Image already at target size (" ++ toString maxCurrentDimension ++
        "px >= " ++ toString req.targetSize ++ "px)") none
    else if !(env.fetchOk req.imageUrl) then
      apiFail "Failed to fetch image" none
    else
      let submitted := min scaleFactor 4
      let out := env.predictJson submitted
      let computedSize : ImageDimensions :=
        { width := (jsRound ((req.currentSize.width : ℚ) * scaleFactor)).toNat,
          height := (jsRound ((req.currentSize.height : ℚ) * scaleFactor)).toNat }
      if out.hasRead then
        match out.readData with
        | Except.ok data =>
          { success := true, error := none, scaleFactor := scaleFactor,
            finalSize := some computedSize,
            downloadUrl := some ("data:image/png;base64," ++ data),
            submittedScale := some submitted }
        | Except.error _ =>
          afterPredict (env.predictOk submitted) out scaleFactor submitted computedSize
      else
        afterPredict (env.predictOk submitted) out scaleFactor submitted computedSize

/-! ### Client batch orchestrator processImages -/

/-- The settings state of the client component. -/
structure ClientSettings where
  enableUpscaling : Bool
  targetSize : ℕ
  maxDimension : ℕ
deriving DecidableEq

/-- The process-image response as the client consumes it. -/
structure ClientResult where
  processedName : String
  originalSize : ImageDimensions
  finalSize : ImageDimensions
  wasResized : Bool
  wasUpscaled : Bool
  scaleFactor : ℚ
  downloadUrl : String
deriving DecidableEq

/-- The upscale-endpoint response as the client consumes it. -/
structure ClientUpscaleResp where
  success : Bool
  scaleFactor : ℚ
  finalSize : ImageDimensions
  downloadUrl : String
deriving DecidableEq

/-- One submitted file together with what its two network calls return in
this run; Except.error stands for a non-ok HTTP status or a thrown
network/JSON failure. -/
structure BatchItem where
  id : String
  fileName : String
  basic : Except Unit ClientResult
  upscale : Except Unit ClientUpscaleResp
deriving DecidableEq

/-- The per-item entry the client pushes into its results list. -/
structure ProcessedImage where
  id : String
  originalName : String
  processedName : String
  originalSize : ImageDimensions
  finalSize : ImageDimensions
  wasResized : Bool
  wasUpscaled : Bool
  scaleFactor : ℚ
  downloadUrl : String
deriving DecidableEq

/-- The merge step of processImages: attempt the upscale only when enabled
and the processed size is below target, and keep the pre-upscale result
unless the upscale response reports success. -/
def buildFinalResult (st : ClientSettings) (r : ClientResult)
    (resp : Except Unit ClientUpscaleResp) : ClientResult :=
  if st.enableUpscaling = true ∧ max r.finalSize.width r.finalSize.height < st.targetSize then
    match resp with
    | Except.ok u =>
      if u.success then
        { r with
          wasUpscaled := true, scaleFactor := u.scaleFactor,
          finalSize := u.finalSize, downloadUrl := u.downloadUrl }
      else r
    | Except.error _ => r
  else r

/-- Whether the upscale response the client received reports success. -/
def clientUpscaleSucceeded : Except Unit ClientUpscaleResp → Bool
  | Except.ok u => u.success
  | Except.error _ => false

/-- The record pushed for one item whose basic processing call succeeded. -/
def finalizeItem (st : ClientSettings) (it : BatchItem) (r : ClientResult) :
    ProcessedImage :=
  let fr := buildFinalResult st r it.upscale
  { id := it.id, originalName := it.fileName, processedName := fr.processedName,
    originalSize := fr.originalSize, finalSize := fr.finalSize,
    wasResized := fr.wasResized, wasUpscaled := fr.wasUpscaled,
    scaleFactor := fr.scaleFactor, downloadUrl := fr.downloadUrl }

/-- The loop of processImages: a failed basic call is caught, logged and
NOT pushed; a successful one is merged with its upscale attempt and
pushed. -/
def clientProcessImages (st : ClientSettings) : List BatchItem → List ProcessedImage
  | [] => []
  | it :: rest =>
    match it.basic with
    | Except.error _ => clientProcessImages st rest
    | Except.ok r => finalizeItem st it r :: clientProcessImages st rest

/-- Whether the basic processing call of an item succeeded. -/
def basicOk (it : BatchItem) : Bool :=
  match it.basic with
  | Except.ok _ => true
  | Except.error _ => false

/-! ### Download-all route: archive finalization and delayed cleanup -/

/-- The two directories of temporary artifacts, as lists of file names. -/
structure TempStore where
  uploads : List String
  processed : List String
deriving DecidableEq

/-- Unlink every file of a directory listing from a directory. -/
def unlinkAllListed (listing : List String) (dir : List String) : List String :=
  listing.foldl (fun acc f => acc.filter (fun g => g ≠ f)) dir

/-- The setTimeout callback of the download-all route: list each directory
and unlink every file found there, regardless of which run created it. -/
def cleanupTimerTask (s : TempStore) : TempStore :=
  { uploads := unlinkAllListed s.uploads s.uploads,
    processed := unlinkAllListed s.processed s.processed }

/-- What the download-all route schedules after finalizing the archive: a
fixed 5000 ms delay, then the cleanup task.  The per-run image manifest of
the request is not consulted by the cleanup. -/
structure DownloadAllEffects where
  delayMs : ℕ
  storeAfter : TempStore
deriving DecidableEq

/-- Effects of the download-all route on the artifact store (the archive
assembly itself only reads files).  The request manifest is deliberately
unused: the source cleanup never consults it. -/
def downloadAllCleanup (_images : List String) (s : TempStore) : DownloadAllEffects :=
  { delayMs := 5000, storeAfter := cleanupTimerTask s }

/-! ### Concrete fixtures used by witnesses and counterexamples -/

/-- A provider environment with no credential configured. -/
def envNoToken : ProviderEnv :=
  { apiToken := none, readImageOk := true,
    run := fun _ => Except.error "network",
    predictOk := fun _ => false,
    predictJson := fun _ =>
      { hasRead := false, readData := Except.error "", isEmptyObj := true,
        status := none, out := PredOut.pnone, errorMsg := none },
    fetchOk := fun _ => false, decodeDims := fun _ => none, timestamp := 0 }

/-- A provider environment where every call succeeds: the provider returns
the URL of an image whose true decoded dimensions are 2000 by 1600. -/
def envOk : ProviderEnv :=
  { apiToken := some "tok", readImageOk := true,
    run := fun _ => Except.ok (ReplicateOutput.str "https://r/out.png"),
    predictOk := fun _ => true,
    predictJson := fun _ =>
      { hasRead := false, readData := Except.error "", isEmptyObj := false,
        status := some "succeeded", out := PredOut.pstr "https://r/out.png",
        errorMsg := none },
    fetchOk := fun _ => true,
    decodeDims := fun u => if u = "https://r/out.png" then
      some { width := 2000, height := 1600 } else none,
    timestamp := 99 }

/-- A request of the standalone upscale endpoint asking a 500 by 400 image
to reach 2560 pixels: a computed factor of 5.12, clamped to 4. -/
def reqSmall : UpscaleImageRequest :=
  { imageUrl := "http://localhost/p.png", fileName := "image_1",
    currentSize := { width := 500, height := 400 }, targetSize := 2560 }

/-! ## Helper lemmas -/

/-- Characterization of jsRound by the two floor inequalities. -/
theorem jsRound_eq_of (q : ℚ) (n : ℤ) (h1 : (n : ℚ) ≤ q + 1 / 2)
    (h2 : q + 1 / 2 < n + 1) : jsRound q = n :=
  Int.floor_eq_iff.mpr ⟨h1, h2⟩

/-- jsRound is the identity on natural numbers. -/
theorem jsRound_natCast (n : ℕ) : jsRound (n : ℚ) = n :=
  jsRound_eq_of _ _ (by push_cast; linarith) (by push_cast; linarith)

/-- jsRound is monotone. -/
theorem jsRound_mono {a b : ℚ} (h : a ≤ b) : jsRound a ≤ jsRound b :=
  Int.floor_le_floor (by linarith)

/-- jsRound of a nonnegative rational is nonnegative. -/
theorem jsRound_nonneg {q : ℚ} (h : 0 ≤ q) : 0 ≤ jsRound q :=
  Int.le_floor.mpr (by push_cast; linarith)

/-- A rescaled axis that is at most the reference axis lands at or below
the bound after rounding. -/
theorem scaled_axis_le (a M m : ℕ) (ha : a ≤ M) (hM : 0 < M) :
    (jsRound ((a : ℚ) * ((m : ℚ) / (M : ℚ)))).toNat ≤ m := by
  have hMQ : (0 : ℚ) < (M : ℚ) := by exact_mod_cast hM
  have h0 : (0 : ℚ) ≤ (m : ℚ) / (M : ℚ) := by positivity
  have ham : (a : ℚ) ≤ (M : ℚ) := by exact_mod_cast ha
  have hq : (a : ℚ) * ((m : ℚ) / (M : ℚ)) ≤ (m : ℚ) := by
    calc (a : ℚ) * ((m : ℚ) / (M : ℚ)) ≤ (M : ℚ) * ((m : ℚ) / (M : ℚ)) := by nlinarith
    _ = (m : ℚ) := by field_simp
  have hmono := jsRound_mono hq
  rw [jsRound_natCast] at hmono
  exact Int.toNat_le.mpr hmono

/-- The reference axis itself rescales exactly to the bound. -/
theorem scaled_axis_eq (M m : ℕ) (hM : 0 < M) :
    (jsRound ((M : ℚ) * ((m : ℚ) / (M : ℚ)))).toNat = m := by
  have hMQ : (M : ℚ) ≠ 0 := by exact_mod_cast hM.ne'
  have h : (M : ℚ) * ((m : ℚ) / (M : ℚ)) = (m : ℚ) := by field_simp
  rw [h, jsRound_natCast]
  exact Int.toNat_natCast m

/-- When a resize actually happens, the larger output axis equals the
bound exactly. -/
theorem resize_result_max (d : ImageDimensions) (m : ℕ)
    (h : m < max d.width d.height) :
    max (calculateResizeDimensions d m).1.width
      (calculateResizeDimensions d m).1.height = m := by
  have hM : 0 < max d.width d.height := lt_of_le_of_lt (Nat.zero_le m) h
  have hcond : ¬ (max d.width d.height ≤ m) := not_le.mpr h
  unfold calculateResizeDimensions
  rw [if_neg hcond]
  rcases le_total d.width d.height with hle | hle
  · have hmax : max d.width d.height = d.height := max_eq_right hle
    have hh := scaled_axis_eq (max d.width d.height) m hM
    have hw := scaled_axis_le d.width (max d.width d.height) m (le_max_left _ _) hM
    simp only
    rw [show ((max d.width d.height : ℕ) : ℚ) = ((d.height : ℕ) : ℚ) by rw [hmax]] at hh ⊢
    rw [show ((d.height : ℚ) * ((m : ℚ) / (d.height : ℚ))) =
      ((max d.width d.height : ℕ) : ℚ) * ((m : ℚ) / ((d.height : ℕ) : ℚ)) by rw [hmax]] at hh
    rw [hmax] at hh
    rw [hh]
    rw [hmax] at hw
    exact Nat.max_eq_right hw
  · have hmax : max d.width d.height = d.width := max_eq_left hle
    have hh := scaled_axis_eq (max d.width d.height) m hM
    have hw := scaled_axis_le d.height (max d.width d.height) m (le_max_right _ _) hM
    simp only
    rw [show ((max d.width d.height : ℕ) : ℚ) = ((d.width : ℕ) : ℚ) by rw [hmax]] at hh ⊢
    rw [show ((d.width : ℚ) * ((m : ℚ) / (d.width : ℚ))) =
      ((max d.width d.height : ℕ) : ℚ) * ((m : ℚ) / ((d.width : ℕ) : ℚ)) by rw [hmax]] at hh
    rw [hmax] at hh
    rw [hh]
    rw [hmax] at hw
    exact Nat.max_eq_left hw

/-- A size already within the bound passes through unchanged. -/
theorem resize_noop (r : ImageDimensions) (m : ℕ) (h : max r.width r.height ≤ m) :
    calculateResizeDimensions r m = (r, false) := by
  unfold calculateResizeDimensions
  rw [if_pos h]

/-! ## Claim C6 -/

/-- Claim C6: for positive axes and a positive bound, calculateResizeDimensions
returns the input unchanged with wasResized false when the larger axis already
fits, and otherwise scales both axes by bound over larger axis with independent
rounding, reports wasResized true, and the resulting larger axis equals the
bound within plus or minus one (in fact exactly). -/
theorem calculateResizeDimensions_spec (d : ImageDimensions) (m : ℕ)
    (hw : 0 < d.width) (hh : 0 < d.height) (hm : 0 < m) :
    (max d.width d.height ≤ m → calculateResizeDimensions d m = (d, false)) ∧
    (m < max d.width d.height →
      (calculateResizeDimensions d m).1.width =
        (jsRound ((d.width : ℚ) * ((m : ℚ) / ((max d.width d.height : ℕ) : ℚ)))).toNat ∧
      (calculateResizeDimensions d m).1.height =
        (jsRound ((d.height : ℚ) * ((m : ℚ) / ((max d.width d.height : ℕ) : ℚ)))).toNat ∧
      (calculateResizeDimensions d m).2 = true ∧
      max (calculateResizeDimensions d m).1.width
        (calculateResizeDimensions d m).1.height ≤ m + 1 ∧
      m ≤ max (calculateResizeDimensions d m).1.width
        (calculateResizeDimensions d m).1.height + 1) := by
  constructor
  · exact fun h => resize_noop d m h
  · intro h
    have hmax := resize_result_max d m h
    have hcond : ¬ (max d.width d.height ≤ m) := not_le.mpr h
    refine ⟨?_, ?_, ?_, ?_, ?_⟩
    · unfold calculateResizeDimensions
      rw [if_neg hcond]
    · unfold calculateResizeDimensions
      rw [if_neg hcond]
    · unfold calculateResizeDimensions
      rw [if_neg hcond]
    · rw [hmax]
      omega
    · rw [hmax]
      omega

/-- Witness for C6 at a 4000 by 3000 image with bound 1300. -/
theorem calculateResizeDimensions_spec_witness :
    1300 < max 4000 3000 ∧
    (calculateResizeDimensions { width := 4000, height := 3000 } 1300).2 = true :=
  ⟨by decide,
    ((calculateResizeDimensions_spec { width := 4000, height := 3000 } 1300
      (by decide) (by decide) (by decide)).2 (by decide)).2.2.1⟩

/-! ## Claim C9 -/

/-- Claim C9: applying calculateResizeDimensions to its own output at the
same bound is a no-op reporting wasResized false. -/
theorem calculateResizeDimensions_idempotent (d : ImageDimensions) (m : ℕ)
    (hw : 0 < d.width) (hh : 0 < d.height) (hm : 0 < m) :
    calculateResizeDimensions (calculateResizeDimensions d m).1 m
      = ((calculateResizeDimensions d m).1, false) := by
  by_cases h : max d.width d.height ≤ m
  · rw [resize_noop d m h]
    exact resize_noop d m h
  · exact resize_noop _ m (le_of_eq (resize_result_max d m (not_le.mp h)))

/-- Witness for C9 at a 4000 by 3000 image with bound 1300. -/
theorem calculateResizeDimensions_idempotent_witness :
    0 < (4000 : ℕ) ∧
    calculateResizeDimensions
        (calculateResizeDimensions { width := 4000, height := 3000 } 1300).1 1300
      = ((calculateResizeDimensions { width := 4000, height := 3000 } 1300).1, false) :=
  ⟨by decide,
    calculateResizeDimensions_idempotent { width := 4000, height := 3000 } 1300
      (by decide) (by decide) (by decide)⟩

/-! ## Claim C10 -/

/-- Claim C10: an empty-string prefix is falsy, so with an index present the
generated name is image_ followed by the one-based index, for every original
name and every clock reading. -/
theorem generateProcessedFileName_empty_pre (now : ℕ) (originalName : String) (i : ℕ) :
    generateProcessedFileName now originalName (some "") (some i)
      = "image_" ++ toString (i + 1) := rfl

/-! ## Claim C8 -/

/-- Claim C8 fails as stated: when the prefix sanitizes to the empty string
the fallback name embeds Date.now(), so two calls with identical inputs at
different times disagree. -/
theorem generateProcessedFileName_not_pure_cex :
    generateProcessedFileName 0 "photo" (some "!") (some 0)
      ≠ generateProcessedFileName 1 "photo" (some "!") (some 0) := by decide

/-- Claim C8 amended: generateProcessedFileName is deterministic whenever the
name it sanitizes has a nonempty sanitized core, and on the index-only path;
only the empty-sanitization fallback consults the clock. -/
theorem generateProcessedFileName_deterministic_cases (t₁ t₂ : ℕ)
    (originalName p : String) (i : ℕ) :
    (sanitizedCore p ≠ "" →
      generateProcessedFileName t₁ originalName (some p) (some i)
        = generateProcessedFileName t₂ originalName (some p) (some i)) ∧
    (∀ q : Option String, truthyStr q = false →
      generateProcessedFileName t₁ originalName q (some i)
        = generateProcessedFileName t₂ originalName q (some i)) ∧
    (sanitizedCore originalName ≠ "" →
      generateProcessedFileName t₁ originalName none none
        = generateProcessedFileName t₂ originalName none none) := by
  refine ⟨?_, ?_, ?_⟩
  · intro hp
    by_cases hpe : p = ""
    · subst hpe
      exact absurd (by decide) hp
    · have ht : truthyStr (some p) = true := by
        simp [truthyStr, bne_iff_ne, hpe]
      simp only [generateProcessedFileName, ht, Option.isSome_some, Bool.and_self,
        if_true, Option.getD_some, sanitizeFileName, if_neg hp]
  · intro q hq
    simp [generateProcessedFileName, hq]
  · intro hn
    simp only [generateProcessedFileName, truthyStr, Option.isSome_none,
      Bool.and_false, if_false, Bool.false_eq_true, sanitizeFileName, if_neg hn]

/-- Witness for the amended C8 with the nonempty prefix ab. -/
theorem generateProcessedFileName_deterministic_cases_witness :
    sanitizedCore "ab" ≠ "" ∧
    generateProcessedFileName 0 "x" (some "ab") (some 0)
      = generateProcessedFileName 1 "x" (some "ab") (some 0) :=
  ⟨by decide, (generateProcessedFileName_deterministic_cases 0 1 "x" "ab" 0).1 (by decide)⟩

/-! ## Claim C7 -/

/-- The 50 MiB limit renders as exactly 50.0 MB. -/
theorem formatFileSize_maxSize : formatFileSize 52428800 = "50.0 MB" := by
  have h2 : jsRound (((52428800 : ℕ) : ℚ) / (1024 : ℚ) ^ (2 : ℕ) * 10) = 500 :=
    jsRound_eq_of _ _ (by norm_num) (by norm_num)
  unfold formatFileSize
  rw [if_neg (by decide : ¬ ((52428800 : ℕ) = 0))]
  show toFixed1 (((52428800 : ℕ) : ℚ) / (1024 : ℚ) ^ floorLog1024 52428800) ++ " " ++
    (["B", "KB", "MB", "GB"].getD (floorLog1024 52428800) "undefined") = "50.0 MB"
  have hl : floorLog1024 52428800 = 2 := rfl
  rw [hl]
  unfold toFixed1
  rw [h2]
  decide

/-- Claim C7: validateImageFile rejects exactly the oversized or
unsupported-type files; a supported-type oversized file gets the
File-too-large message with the 50 MiB limit formatted as 50.0 MB, and an
unsupported type gets the message listing the supported formats. -/
theorem validateImageFile_spec (file : JSFile) :
    ((validateImageFile file).1 = false ↔
      (52428800 < file.size ∨ file.type ∉ supportedTypes)) ∧
    (file.type ∈ supportedTypes → 52428800 < file.size →
      (validateImageFile file).2 =
        some ("File too large: " ++ formatFileSize file.size ++
          ". Maximum size: " ++ "50.0 MB")) ∧
    (file.type ∉ supportedTypes →
      (validateImageFile file).2 =
        some ("Unsupported file type: " ++ file.type ++
          ". Supported formats: JPEG, PNG, WebP, AVIF, BMP, TIFF, GIF")) := by
  have hM : MAX_FILE_SIZE = 52428800 := by decide
  by_cases hmem : file.type ∈ supportedTypes
  · by_cases hsz : 52428800 < file.size
    · refine ⟨?_, fun _ _ => ?_, fun h3 => absurd hmem h3⟩
      · simp [validateImageFile, hmem, hM, hsz]
      · simp [validateImageFile, hmem, hM, hsz, formatFileSize_maxSize]
    · refine ⟨?_, fun _ h2 => absurd h2 hsz, fun h3 => absurd hmem h3⟩
      simp [validateImageFile, hmem, hM, hsz]
  · refine ⟨?_, fun h2 => absurd h2 hmem, fun _ => ?_⟩
    · simp [validateImageFile, hmem]
    · simp [validateImageFile, hmem]

/-- Witness for C7: a supported-type file one byte over the limit. -/
theorem validateImageFile_spec_witness :
    "image/png" ∈ supportedTypes ∧ 52428800 < 52428801 ∧
    (validateImageFile { name := "big.png", type := "image/png", size := 52428801 }).2 =
      some ("File too large: " ++ formatFileSize 52428801 ++
        ". Maximum size: " ++ "50.0 MB") :=
  ⟨by decide, by decide,
    (validateImageFile_spec { name := "big.png", type := "image/png", size := 52428801 }).2.1
      (by decide) (by decide)⟩

/-! ## Claim C1 -/

/-- Claim C1 fails as stated: a batch of three items whose second item fails
basic processing (for example a validation failure reported as a non-ok
response) yields a results list of length two, not three; the failed item is
logged and dropped, not recorded with success false. -/
theorem batch_outcome_count_cex :
    (clientProcessImages ⟨false, 2560, 1300⟩
      [⟨"id1", "a.png",
        Except.ok ⟨"image_1", ⟨800, 600⟩, ⟨800, 600⟩, false, false, 1,
          "/api/serve-image/1_image_1.png"⟩, Except.error ()⟩,
       ⟨"id2", "b.xyz", Except.error (), Except.error ()⟩,
       ⟨"id3", "c.png",
        Except.ok ⟨"image_3", ⟨900, 600⟩, ⟨900, 600⟩, false, false, 1,
          "/api/serve-image/1_image_3.png"⟩, Except.error ()⟩]).length = 2 ∧
    (2 : ℕ) ≠ 3 :=
  ⟨rfl, by decide⟩

/-- Claim C1 amended: the results list of processImages contains exactly one
entry per item whose basic processing call succeeded, in submission order;
items whose basic call failed are dropped, so the length equals the number
of basic successes rather than the number of submitted items. -/
theorem clientProcessImages_entries (st : ClientSettings) (l : List BatchItem) :
    clientProcessImages st l
      = l.filterMap (fun it =>
          match it.basic with
          | Except.ok r => some (finalizeItem st it r)
          | Except.error _ => none) ∧
    (clientProcessImages st l).length = l.countP basicOk := by
  induction l with
  | nil => exact ⟨rfl, rfl⟩
  | cons it rest ih =>
    cases hb : it.basic with
    | error e =>
      refine ⟨?_, ?_⟩
      · simp [clientProcessImages, hb, ih.1]
      · simp [clientProcessImages, hb, ih.2, basicOk, List.countP_cons]
    | ok r =>
      refine ⟨?_, ?_⟩
      · simp [clientProcessImages, hb, ih.1]
      · simp [clientProcessImages, hb, ih.2, basicOk, List.countP_cons]

/-! ## Claim C5 -/

/-- The unlink loop only ever removes files: its result is a sublist of the
directory it started from. -/
theorem unlinkAllListed_sub (l d : List String) (x : String)
    (h : x ∈ unlinkAllListed l d) : x ∈ d := by
  induction l generalizing d with
  | nil => exact h
  | cons a t ih =>
    have he : unlinkAllListed (a :: t) d
        = unlinkAllListed t (d.filter (fun g => g ≠ a)) := rfl
    rw [he] at h
    exact List.mem_of_mem_filter (ih _ h)

/-- Every file of the listing is gone after the unlink loop. -/
theorem not_mem_unlinkAllListed (x : String) :
    ∀ (l d : List String), x ∈ l → x ∉ unlinkAllListed l d := by
  intro l
  induction l with
  | nil => intro d h; cases h
  | cons a t ih =>
    intro d h hc
    have he : unlinkAllListed (a :: t) d
        = unlinkAllListed t (d.filter (fun g => g ≠ a)) := rfl
    rw [he] at hc
    rcases List.mem_cons.mp h with rfl | hx
    · have hm := unlinkAllListed_sub _ _ _ hc
      have hf := List.mem_filter.mp hm
      simp at hf
    · exact ih _ hx hc

/-- Claim C5 fails as stated on scoping: the scheduled cleanup deletes a
processed artifact that belongs to a different run, instead of leaving it
unchanged. -/
theorem cleanup_deletes_other_runs_cex :
    "222_other.png" ∈
      (TempStore.mk [] ["111_mine.png", "222_other.png"]).processed ∧
    "222_other.png" ∉
      ((downloadAllCleanup ["111_mine"]
        (TempStore.mk [] ["111_mine.png", "222_other.png"])).storeAfter).processed := by
  decide

/-- Claim C5 amended: deletion is scheduled after a fixed 5000 ms delay, but
it is not scoped to the requesting run: the cleanup removes every file it
finds in the uploads and processed directories, whichever run created it. -/
theorem cleanup_delay_and_global_scope (images : List String) (s : TempStore) :
    (downloadAllCleanup images s).delayMs = 5000 ∧
    (∀ x ∈ s.uploads, x ∉ (downloadAllCleanup images s).storeAfter.uploads) ∧
    (∀ x ∈ s.processed, x ∉ (downloadAllCleanup images s).storeAfter.processed) := by
  refine ⟨rfl, ?_, ?_⟩
  · intro x hx
    exact not_mem_unlinkAllListed x _ _ hx
  · intro x hx
    exact not_mem_unlinkAllListed x _ _ hx

/-- Witness for the amended C5 at a one-file store. -/
theorem cleanup_delay_and_global_scope_witness :
    "a.png" ∈ (TempStore.mk ["a.png"] []).uploads ∧
    "a.png" ∉ (downloadAllCleanup [] (TempStore.mk ["a.png"] [])).storeAfter.uploads :=
  ⟨by decide,
    (cleanup_delay_and_global_scope [] (TempStore.mk ["a.png"] [])).2.1 "a.png" (by decide)⟩

/-! ## Claim C2 -/

/-- Claim C2: when basic processing of an item succeeded, a failed upscale
attempt (thrown error, provider failure, missing credential, or
unrecognized response, all of which make the attempt not succeed) leaves
the server response successful with the pre-upscale finalSize, download
URL, wasUpscaled false and scaleFactor 1; and the client merge step keeps
the pre-upscale result unchanged whenever the upscale response does not
report success. -/
theorem upscale_failure_keeps_preupscale_artifact :
    (∀ (env : ProviderEnv) (ts : ℕ) (f : ServerFile) (st : ServerSettings)
        (d : ImageDimensions),
      f.size ≤ MAX_FILE_SIZE → f.dims = some d →
      upscaleAttemptSucceeded
        (upscaleWithReplicate env st.fileName (serverResize d st.maxDimension).1
          st.targetSize) = false →
      ((processImagePOST env ts (some f) st).success = true ∧
       (processImagePOST env ts (some f) st).wasUpscaled = false ∧
       (processImagePOST env ts (some f) st).scaleFactor = 1 ∧
       (processImagePOST env ts (some f) st).finalSize
         = some (serverResize d st.maxDimension).1 ∧
       (processImagePOST env ts (some f) st).downloadUrl
         = some ("/api/serve-image/" ++ toString ts ++ "_" ++
             st.fileName ++ ".png"))) ∧
    (∀ (cst : ClientSettings) (r : ClientResult) (resp : Except Unit ClientUpscaleResp),
      clientUpscaleSucceeded resp = false → buildFinalResult cst r resp = r) := by
  constructor
  · intro env ts f st d hs hd hu
    have hns : ¬ (MAX_FILE_SIZE < f.size) := not_lt.mpr hs
    simp only [processImagePOST]
    rw [if_neg hns, hd]
    simp only
    by_cases hup : st.enableUpscaling = true ∧
        max (serverResize d st.maxDimension).1.width
          (serverResize d st.maxDimension).1.height < st.targetSize
    · rw [if_pos hup]
      cases hrep : upscaleWithReplicate env st.fileName
          (serverResize d st.maxDimension).1 st.targetSize with
      | error e => exact ⟨rfl, rfl, rfl, rfl, rfl⟩
      | ok u =>
        have husucc : u.success = false := by
          rw [hrep] at hu
          exact hu
        simp [husucc]
    · rw [if_neg hup]
      exact ⟨rfl, rfl, rfl, rfl, rfl⟩
  · intro cst r resp hro
    cases resp with
    | error e => simp [buildFinalResult]
    | ok u =>
      have husucc : u.success = false := hro
      unfold buildFinalResult
      by_cases hcond : cst.enableUpscaling = true ∧
          max r.finalSize.width r.finalSize.height < cst.targetSize
      · rw [if_pos hcond]
        simp only [husucc, Bool.false_eq_true, if_false]
      · rw [if_neg hcond]

/-- Witness for C2: an 800 by 600 item processed with upscaling on, target
2560, against an environment with no provider credential: the upscale
attempt throws and the item is still returned successfully with its
pre-upscale artifact. -/
theorem upscale_failure_keeps_preupscale_artifact_witness :
    (1000 : ℕ) ≤ MAX_FILE_SIZE ∧
    upscaleAttemptSucceeded
      (upscaleWithReplicate envNoToken "image_1"
        (serverResize ⟨800, 600⟩ 1300).1 2560) = false ∧
    (processImagePOST envNoToken 7 (some ⟨"a.png", 1000, some ⟨800, 600⟩⟩)
        ⟨"image_1", 1300, true, 2560⟩).success = true ∧
    (processImagePOST envNoToken 7 (some ⟨"a.png", 1000, some ⟨800, 600⟩⟩)
        ⟨"image_1", 1300, true, 2560⟩).wasUpscaled = false :=
  ⟨by decide, rfl,
    (upscale_failure_keeps_preupscale_artifact.1 envNoToken 7
      ⟨"a.png", 1000, some ⟨800, 600⟩⟩ ⟨"image_1", 1300, true, 2560⟩
      ⟨800, 600⟩ (by decide) rfl rfl).1,
    (upscale_failure_keeps_preupscale_artifact.1 envNoToken 7
      ⟨"a.png", 1000, some ⟨800, 600⟩⟩ ⟨"image_1", 1300, true, 2560⟩
      ⟨800, 600⟩ (by decide) rfl rfl).2.1⟩

/-! ## Claim C3 -/

/-- Every successful exit of the response interpretation of the standalone
endpoint carries the computed size it was handed. -/
theorem afterPredict_shape (ok : Bool) (out : PredictionJson) (sf sub : ℚ)
    (cs : ImageDimensions) :
    ((afterPredict ok out sf sub cs).success = false ∧
     (afterPredict ok out sf sub cs).submittedScale = some sub) ∨
    (∃ u, afterPredict ok out sf sub cs =
      { success := true, error := none, scaleFactor := sf, finalSize := some cs,
        downloadUrl := some u, submittedScale := some sub }) := by
  obtain ⟨hasRead, readData, isEmptyObj, status, outf, errorMsg⟩ := out
  cases isEmptyObj
  case true => exact Or.inl ⟨rfl, rfl⟩
  case false =>
  cases ok
  case false => exact Or.inl ⟨rfl, rfl⟩
  case true =>
  by_cases hsp : (status = some "succeeded" ∨ status = some "processing")
  · by_cases hf : status = some "failed"
    · simp [afterPredict, hsp, hf, apiFail]
    · cases outf with
      | pstr s =>
        by_cases hes : s = ""
        · simp [afterPredict, hsp, hf, hes, apiFail]
        · refine Or.inr ⟨s, ?_⟩
          simp [afterPredict, hsp, hf, hes, apiFail]
      | parr l =>
        cases l with
        | nil => simp [afterPredict, hsp, hf, apiFail]
        | cons a t =>
          refine Or.inr ⟨a, ?_⟩
          simp [afterPredict, hsp, hf, apiFail]
      | pnone => simp [afterPredict, hsp, hf, apiFail]
  · by_cases hf : status = some "failed"
    · simp [afterPredict, hsp, hf, apiFail]
    · simp [afterPredict, hsp, hf, apiFail]

/-- A successful in-route upscale got its finalSize by decoding the bytes
behind the URL the provider returned. -/
theorem upscaleWithReplicate_success_measured (env : ProviderEnv) (fn : String)
    (cur : ImageDimensions) (tgt : ℕ) (u : UpscaleRet)
    (hok : upscaleWithReplicate env fn cur tgt = Except.ok u)
    (hsucc : u.success = true) :
    ∃ out url d,
      env.run (min ((tgt : ℚ) / ((max cur.width cur.height : ℕ) : ℚ)) 4)
        = Except.ok out ∧
      extractUrl out = some url ∧
      env.decodeDims url = some d ∧
      u.finalSize = some d := by
  unfold upscaleWithReplicate at hok
  cases htok : env.apiToken with
  | none => rw [htok] at hok; cases hok
  | some tk =>
    rw [htok] at hok
    dsimp only at hok
    by_cases h1 : ((tgt : ℚ) / ((max cur.width cur.height : ℕ) : ℚ)) ≤ 1
    · rw [if_pos h1] at hok
      obtain rfl := Except.ok.inj hok
      simp [upscaleFail] at hsucc
    · rw [if_neg h1] at hok
      cases hro : env.readImageOk with
      | false =>
        rw [hro] at hok
        simp only [Bool.not_false, if_true] at hok
        obtain rfl := Except.ok.inj hok
        simp [upscaleFail] at hsucc
      | true =>
        rw [hro] at hok
        simp only [Bool.not_true, Bool.false_eq_true, if_false] at hok
        cases hrun : env.run (min ((tgt : ℚ) /
            ((max cur.width cur.height : ℕ) : ℚ)) 4) with
        | error e =>
          rw [hrun] at hok
          dsimp only at hok
          obtain rfl := Except.ok.inj hok
          simp [upscaleFail] at hsucc
        | ok out =>
          rw [hrun] at hok
          dsimp only at hok
          cases hurl : extractUrl out with
          | none =>
            rw [hurl] at hok
            dsimp only at hok
            obtain rfl := Except.ok.inj hok
            simp [upscaleFail] at hsucc
          | some url =>
            rw [hurl] at hok
            dsimp only at hok
            cases hfo : env.fetchOk url with
            | false =>
              rw [hfo] at hok
              simp only [Bool.not_false, if_true] at hok
              obtain rfl := Except.ok.inj hok
              simp [upscaleFail] at hsucc
            | true =>
              rw [hfo] at hok
              simp only [Bool.not_true, Bool.false_eq_true, if_false] at hok
              cases hdec : env.decodeDims url with
              | none =>
                rw [hdec] at hok
                dsimp only at hok
                obtain rfl := Except.ok.inj hok
                simp [upscaleFail] at hsucc
              | some dims =>
                rw [hdec] at hok
                dsimp only at hok
                obtain rfl := Except.ok.inj hok
                exact ⟨out, url, dims, rfl, hurl, hdec, rfl⟩

/-- Every successful response of the standalone endpoint reports the
finalSize computed by rounding currentSize times the unclamped factor. -/
theorem upscaleImagePOST_success_computed (env : ProviderEnv) (req : UpscaleImageRequest)
    (h : (upscaleImagePOST env req).success = true) :
    (upscaleImagePOST env req).finalSize = some
      { width := (jsRound ((req.currentSize.width : ℚ) *
          ((req.targetSize : ℚ) /
            ((max req.currentSize.width req.currentSize.height : ℕ) : ℚ)))).toNat,
        height := (jsRound ((req.currentSize.height : ℚ) *
          ((req.targetSize : ℚ) /
            ((max req.currentSize.width req.currentSize.height : ℕ) : ℚ)))).toNat } := by
  unfold upscaleImagePOST at h ⊢
  cases htok : env.apiToken with
  | none =>
    rw [htok] at h
    simp [apiFail] at h
  | some tk =>
    rw [htok] at h
    dsimp only at h ⊢
    by_cases h1 : ((req.targetSize : ℚ) /
        ((max req.currentSize.width req.currentSize.height : ℕ) : ℚ)) ≤ 1
    · rw [if_pos h1] at h
      simp [apiFail] at h
    · rw [if_neg h1] at h ⊢
      cases hfo : env.fetchOk req.imageUrl with
      | false =>
        rw [hfo] at h
        simp only [Bool.not_false, eq_self_iff_true, if_true] at h
        simp [apiFail] at h
      | true =>
        rw [hfo] at h
        simp only [Bool.not_true, Bool.false_eq_true, if_false] at h ⊢
        cases hhr : (env.predictJson (min ((req.targetSize : ℚ) /
            ((max req.currentSize.width req.currentSize.height : ℕ) : ℚ)) 4)).hasRead with
        | true =>
          rw [hhr] at h
          simp only [eq_self_iff_true, if_true] at h ⊢
          cases hrd : (env.predictJson (min ((req.targetSize : ℚ) /
              ((max req.currentSize.width req.currentSize.height : ℕ) : ℚ)) 4)).readData with
          | ok data =>
            rw [hrd] at h
          | error e =>
            rw [hrd] at h
            dsimp only at h ⊢
            rcases afterPredict_shape (env.predictOk _) _ _ _ _ with ⟨hfail, hsub⟩ | ⟨uu, hsu⟩
            · rw [hfail] at h
              cases h
            · rw [hsu]
        | false =>
          rw [hhr] at h
          simp only [Bool.false_eq_true, if_false] at h ⊢
          rcases afterPredict_shape (env.predictOk _) _ _ _ _ with ⟨hfail, hsub⟩ | ⟨uu, hsu⟩
          · rw [hfail] at h
            cases h
          · rw [hsu]

/-- Claim C3 fails as stated: against a provider whose returned image
actually measures 2000 by 1600, the standalone upscale endpoint succeeds
and reports finalSize 2560 by 2048, computed from the requested factor
rather than measured from the returned bytes. -/
theorem upscale_endpoint_reports_computed_size_cex :
    (upscaleImagePOST envOk reqSmall).success = true ∧
    (upscaleImagePOST envOk reqSmall).downloadUrl = some "https://r/out.png" ∧
    envOk.decodeDims "https://r/out.png" = some ⟨2000, 1600⟩ ∧
    (upscaleImagePOST envOk reqSmall).finalSize = some ⟨2560, 2048⟩ ∧
    (upscaleImagePOST envOk reqSmall).finalSize
      ≠ envOk.decodeDims "https://r/out.png" := by
  have hc : upscaleImagePOST envOk reqSmall =
      { success := true, error := none,
        scaleFactor := ((2560 : ℕ) : ℚ) / ((500 : ℕ) : ℚ),
        finalSize := some
          { width := (jsRound (((500 : ℕ) : ℚ) *
              (((2560 : ℕ) : ℚ) / ((500 : ℕ) : ℚ)))).toNat,
            height := (jsRound (((400 : ℕ) : ℚ) *
              (((2560 : ℕ) : ℚ) / ((500 : ℕ) : ℚ)))).toNat },
        downloadUrl := some "https://r/out.png",
        submittedScale := some (min (((2560 : ℕ) : ℚ) / ((500 : ℕ) : ℚ)) 4) } := by
    unfold upscaleImagePOST afterPredict
    dsimp only [envOk, reqSmall]
    rw [show (max (500 : ℕ) (400 : ℕ)) = 500 from by decide]
    rw [if_neg (by norm_num : ¬ (((2560 : ℕ) : ℚ) / ((500 : ℕ) : ℚ) ≤ 1))]
    simp
  have e1 : jsRound (((500 : ℕ) : ℚ) * (((2560 : ℕ) : ℚ) / ((500 : ℕ) : ℚ))) = 2560 :=
    jsRound_eq_of _ _ (by norm_num) (by norm_num)
  have e2 : jsRound (((400 : ℕ) : ℚ) * (((2560 : ℕ) : ℚ) / ((500 : ℕ) : ℚ))) = 2048 :=
    jsRound_eq_of _ _ (by norm_num) (by norm_num)
  have hdec : envOk.decodeDims "https://r/out.png" = some ⟨2000, 1600⟩ := by
    simp [envOk]
  refine ⟨by rw [hc], by rw [hc], hdec, ?_, ?_⟩
  · rw [hc]
    simp only [e1, e2]
    decide
  · rw [hc, hdec]
    simp only [e1, e2]
    decide

/-- Claim C3 amended: only the in-route upscale helper measures the true
output dimensions by decoding the returned bytes; the standalone upscale
endpoint the client calls reports finalSize computed from the unclamped
requested factor without decoding the output. -/
theorem upscale_finalSize_reporting :
    (∀ (env : ProviderEnv) (fn : String) (cur : ImageDimensions) (tgt : ℕ)
        (u : UpscaleRet),
      upscaleWithReplicate env fn cur tgt = Except.ok u → u.success = true →
      ∃ out url d,
        env.run (min ((tgt : ℚ) / ((max cur.width cur.height : ℕ) : ℚ)) 4)
          = Except.ok out ∧
        extractUrl out = some url ∧
        env.decodeDims url = some d ∧
        u.finalSize = some d) ∧
    (∀ (env : ProviderEnv) (req : UpscaleImageRequest),
      (upscaleImagePOST env req).success = true →
      (upscaleImagePOST env req).finalSize = some
        { width := (jsRound ((req.currentSize.width : ℚ) *
            ((req.targetSize : ℚ) /
              ((max req.currentSize.width req.currentSize.height : ℕ) : ℚ)))).toNat,
          height := (jsRound ((req.currentSize.height : ℚ) *
            ((req.targetSize : ℚ) /
              ((max req.currentSize.width req.currentSize.height : ℕ) : ℚ)))).toNat }) :=
  ⟨fun env fn cur tgt u hok hsucc =>
      upscaleWithReplicate_success_measured env fn cur tgt u hok hsucc,
   fun env req h => upscaleImagePOST_success_computed env req h⟩

/-- Witness for the amended C3: a successful in-route upscale against the
all-success environment returns the measured 2000 by 1600 dimensions. -/
theorem upscale_finalSize_reporting_witness :
    upscaleWithReplicate envOk "image_1" ⟨500, 400⟩ 2560 = Except.ok
      { success := true, error := none, wasUpscaled := true,
        scaleFactor := ((2560 : ℕ) : ℚ) / ((500 : ℕ) : ℚ),
        finalSize := some ⟨2000, 1600⟩,
        downloadUrl := some "/api/serve-image/upscaled_99_image_1.png",
        submittedScale := some (min (((2560 : ℕ) : ℚ) / ((500 : ℕ) : ℚ)) 4) } ∧
    (∃ out url d,
      envOk.run (min (((2560 : ℕ) : ℚ) / ((max (500 : ℕ) (400 : ℕ) : ℕ) : ℚ)) 4)
        = Except.ok out ∧
      extractUrl out = some url ∧
      envOk.decodeDims url = some d ∧
      ({ success := true, error := none, wasUpscaled := true,
         scaleFactor := ((2560 : ℕ) : ℚ) / ((500 : ℕ) : ℚ),
         finalSize := some ⟨2000, 1600⟩,
         downloadUrl := some "/api/serve-image/upscaled_99_image_1.png",
         submittedScale := some (min (((2560 : ℕ) : ℚ) / ((500 : ℕ) : ℚ)) 4) }
           : UpscaleRet).finalSize = some d) := by
  have hc : upscaleWithReplicate envOk "image_1" ⟨500, 400⟩ 2560 = Except.ok
      { success := true, error := none, wasUpscaled := true,
        scaleFactor := ((2560 : ℕ) : ℚ) / ((500 : ℕ) : ℚ),
        finalSize := some ⟨2000, 1600⟩,
        downloadUrl := some "/api/serve-image/upscaled_99_image_1.png",
        submittedScale := some (min (((2560 : ℕ) : ℚ) / ((500 : ℕ) : ℚ)) 4) } := by
    unfold upscaleWithReplicate
    dsimp only [envOk]
    rw [show (max (500 : ℕ) (400 : ℕ)) = 500 from by decide]
    rw [if_neg (by norm_num : ¬ (((2560 : ℕ) : ℚ) / ((500 : ℕ) : ℚ) ≤ 1))]
    simp [extractUrl]
    decide
  exact ⟨hc, upscale_finalSize_reporting.1 envOk "image_1" ⟨500, 400⟩ 2560 _ hc rfl⟩

/-! ## Claim C4 -/

/-- Every exit of the response interpretation records the submitted scale
it was handed, and a successful exit reports the unclamped factor. -/
theorem afterPredict_submittedScale (ok : Bool) (out : PredictionJson)
    (sf sub : ℚ) (cs : ImageDimensions) :
    (afterPredict ok out sf sub cs).submittedScale = some sub ∧
    ((afterPredict ok out sf sub cs).success = true →
      (afterPredict ok out sf sub cs).scaleFactor = sf) := by
  rcases afterPredict_shape ok out sf sub cs with ⟨hfail, hsub⟩ | ⟨u, hs⟩
  · refine ⟨hsub, fun hsucc => ?_⟩
    rw [hfail] at hsucc
    cases hsucc
  · rw [hs]
    exact ⟨rfl, fun _ => rfl⟩

/-- After the provider call of the in-route helper is reached, the result
carries the clamped submitted scale and, on success, the unclamped
reported factor. -/
theorem upscaleWithReplicate_clamped (env : ProviderEnv) (fn : String)
    (cur : ImageDimensions) (tgt : ℕ) (tk : String)
    (htok : env.apiToken = some tk)
    (hf : 1 < (tgt : ℚ) / ((max cur.width cur.height : ℕ) : ℚ))
    (hro : env.readImageOk = true) :
    ∃ u, upscaleWithReplicate env fn cur tgt = Except.ok u ∧
      u.submittedScale
        = some (min ((tgt : ℚ) / ((max cur.width cur.height : ℕ) : ℚ)) 4) ∧
      (u.success = true →
        u.scaleFactor = (tgt : ℚ) / ((max cur.width cur.height : ℕ) : ℚ)) := by
  unfold upscaleWithReplicate
  rw [htok]
  dsimp only
  rw [if_neg (not_le.mpr hf), hro]
  simp only [Bool.not_true, Bool.false_eq_true, if_false]
  cases hrun : env.run (min ((tgt : ℚ) /
      ((max cur.width cur.height : ℕ) : ℚ)) 4) with
  | error e =>
    exact ⟨_, rfl, rfl, fun h => absurd h (by simp [upscaleFail])⟩
  | ok out =>
    dsimp only
    cases hurl : extractUrl out with
    | none =>
      exact ⟨_, rfl, rfl, fun h => absurd h (by simp [upscaleFail])⟩
    | some url =>
      dsimp only
      cases hfo : env.fetchOk url with
      | false =>
        simp only [Bool.not_false, eq_self_iff_true, if_true]
        exact ⟨_, rfl, rfl, fun h => absurd h (by simp [upscaleFail])⟩
      | true =>
        simp only [Bool.not_true, Bool.false_eq_true, if_false]
        cases hdec : env.decodeDims url with
        | none =>
          exact ⟨_, rfl, rfl, fun h => absurd h (by simp [upscaleFail])⟩
        | some dims =>
          exact ⟨_, rfl, rfl, fun _ => rfl⟩

/-- After the provider call of the standalone endpoint is reached, the
response carries the clamped submitted scale and, on success, the
unclamped reported factor. -/
theorem upscaleImagePOST_clamped (env : ProviderEnv) (req : UpscaleImageRequest)
    (tk : String) (htok : env.apiToken = some tk)
    (hf : 1 < (req.targetSize : ℚ) /
      ((max req.currentSize.width req.currentSize.height : ℕ) : ℚ))
    (hfo : env.fetchOk req.imageUrl = true) :
    (upscaleImagePOST env req).submittedScale
      = some (min ((req.targetSize : ℚ) /
          ((max req.currentSize.width req.currentSize.height : ℕ) : ℚ)) 4) ∧
    ((upscaleImagePOST env req).success = true →
      (upscaleImagePOST env req).scaleFactor = (req.targetSize : ℚ) /
        ((max req.currentSize.width req.currentSize.height : ℕ) : ℚ)) := by
  unfold upscaleImagePOST
  rw [htok]
  dsimp only
  rw [if_neg (not_le.mpr hf), hfo]
  simp only [Bool.not_true, Bool.false_eq_true, if_false]
  cases hhr : (env.predictJson (min ((req.targetSize : ℚ) /
      ((max req.currentSize.width req.currentSize.height : ℕ) : ℚ)) 4)).hasRead with
  | true =>
    simp only [eq_self_iff_true, if_true]
    cases hrd : (env.predictJson (min ((req.targetSize : ℚ) /
        ((max req.currentSize.width req.currentSize.height : ℕ) : ℚ)) 4)).readData with
    | ok data =>
      exact ⟨rfl, fun _ => rfl⟩
    | error e =>
      dsimp only
      exact afterPredict_submittedScale _ _ _ _ _
  | false =>
    simp only [Bool.false_eq_true, if_false]
    exact afterPredict_submittedScale _ _ _ _ _

/-- Claim C4: whenever an upscale invocation with computed factor above one
reaches the provider, the submitted scale is the factor clamped to 4 while
any reported scaleFactor is the unclamped factor; for factors above 4 the
submitted scale is exactly 4, below the reported value. -/
theorem upscale_scale_clamped_reported_unclamped :
    (∀ (env : ProviderEnv) (fn : String) (cur : ImageDimensions) (tgt : ℕ)
        (tk : String),
      env.apiToken = some tk →
      1 < (tgt : ℚ) / ((max cur.width cur.height : ℕ) : ℚ) →
      env.readImageOk = true →
      ∃ u, upscaleWithReplicate env fn cur tgt = Except.ok u ∧
        u.submittedScale
          = some (min ((tgt : ℚ) / ((max cur.width cur.height : ℕ) : ℚ)) 4) ∧
        (u.success = true →
          u.scaleFactor = (tgt : ℚ) / ((max cur.width cur.height : ℕ) : ℚ)) ∧
        (4 < (tgt : ℚ) / ((max cur.width cur.height : ℕ) : ℚ) →
          u.submittedScale = some 4)) ∧
    (∀ (env : ProviderEnv) (req : UpscaleImageRequest) (tk : String),
      env.apiToken = some tk →
      1 < (req.targetSize : ℚ) /
        ((max req.currentSize.width req.currentSize.height : ℕ) : ℚ) →
      env.fetchOk req.imageUrl = true →
      (upscaleImagePOST env req).submittedScale
        = some (min ((req.targetSize : ℚ) /
            ((max req.currentSize.width req.currentSize.height : ℕ) : ℚ)) 4) ∧
      ((upscaleImagePOST env req).success = true →
        (upscaleImagePOST env req).scaleFactor = (req.targetSize : ℚ) /
          ((max req.currentSize.width req.currentSize.height : ℕ) : ℚ)) ∧
      (4 < (req.targetSize : ℚ) /
          ((max req.currentSize.width req.currentSize.height : ℕ) : ℚ) →
        (upscaleImagePOST env req).submittedScale = some 4)) := by
  constructor
  · intro env fn cur tgt tk htok hf hro
    obtain ⟨u, hu, hsub, hrep⟩ := upscaleWithReplicate_clamped env fn cur tgt tk htok hf hro
    refine ⟨u, hu, hsub, hrep, fun h4 => ?_⟩
    rw [hsub, min_eq_right (le_of_lt h4)]
  · intro env req tk htok hf hfo
    obtain ⟨hsub, hrep⟩ := upscaleImagePOST_clamped env req tk htok hf hfo
    refine ⟨hsub, hrep, fun h4 => ?_⟩
    rw [hsub, min_eq_right (le_of_lt h4)]

/-- Witness for C4: the 500 by 400 request toward 2560 has factor 5.12;
the scale submitted to the provider is clamped to exactly 4. -/
theorem upscale_scale_clamped_reported_unclamped_witness :
    1 < ((2560 : ℕ) : ℚ) / ((max (500 : ℕ) (400 : ℕ) : ℕ) : ℚ) ∧
    4 < ((2560 : ℕ) : ℚ) / ((max (500 : ℕ) (400 : ℕ) : ℕ) : ℚ) ∧
    (upscaleImagePOST envOk reqSmall).submittedScale = some 4 := by
  have hmax : (max (500 : ℕ) (400 : ℕ)) = 500 := by decide
  have hf : 1 < ((2560 : ℕ) : ℚ) / ((max (500 : ℕ) (400 : ℕ) : ℕ) : ℚ) := by
    rw [hmax]; norm_num
  have h4 : 4 < ((2560 : ℕ) : ℚ) / ((max (500 : ℕ) (400 : ℕ) : ℕ) : ℚ) := by
    rw [hmax]; norm_num
  exact ⟨hf, h4,
    (upscale_scale_clamped_reported_unclamped.2 envOk reqSmall "tok" rfl hf rfl).2.2 h4⟩

end Upscaler
